import Mathlib

/-!
Shallow embedding of the kupo proxy dataplane
(src/proxy/src/proxy.rs and src/proxy/src/config.rs) and proofs about it.

Conventions of the embedding:
* the async Rust methods become pure Lean functions that thread the shared
  `State` explicitly;
* `HashMap` fields become association lists read through `List.lookup`;
  an insert is a cons, which shadows any earlier binding exactly as a
  `HashMap::insert` replaces it;
* Rust panics (`unwrap` on `None`/`Err`) and propagated `pingora::Error`s
  (`?`) are the `panicked` and `err` constructors of `RFResult`;
* the two compiled regexes stored in `KupoProxy` are fields holding the
  functions they denote (`captures` for the host regex, `is_match` for the
  private-endpoint regex), since the regex engine is an external crate.
-/

namespace Kupo

/-- Modelled from the spec: the Rate Rule record (the proxy crate's type
behind `tier.rates` is not under src/). "Rate Rule — one limiting
constraint: `interval` (duration over which the rate is measured) and
`limit` (maximum permitted event count within that interval)."
`interval` is in seconds. -/
structure RateRule where
  interval : Nat
  limit : Nat
deriving DecidableEq

/-- Modelled from the spec: "Tier — `name` (key in Tier Catalog), ordered
sequence of Rate Rules." The code reads `tier.rates` (proxy.rs line 44). -/
structure Tier where
  name : String
  rates : List RateRule
deriving DecidableEq

/-- Modelled from the spec: "Consumer — identity resolved from a request's
credential. Fields: `key`, `network`, `pruned`, `tier`." The derived
`Inhabited` default (all fields empty / false) models Rust's
`Consumer::default()`, the "unauthenticated sentinel". -/
structure Consumer where
  key : String
  network : String
  pruned : Bool
  tier : String
deriving DecidableEq, Inhabited

/-- Modelled from the spec: a Rate Counter (`pingora_limits::rate::Rate` is
an external crate). "Rate Counter — mutable sliding-window state bound to
one (consumer, rule) pair." The model counts the events recorded so far,
with every evaluation falling inside one window, so `observe` returns the
count after recording; the claims proved below do not depend on the
bucketing arithmetic, only on which counters are touched. -/
abbrev RateCounter := Nat

/-- One consumer's limiter entry: the `(rule, counter)` pairs built by
`add_limiter` (proxy.rs lines 44-48). -/
abbrev LimiterEntry := List (RateRule × RateCounter)

/-- Modelled from the spec: "Shared State — container owning Tenant
Directory, Tier Catalog, Limiter Table, Upstream Health flag" (the proxy
crate's `State` type is not under src/). The `RwLock`s disappear in the
pure embedding; each request-handling function takes and returns the
state. -/
structure State where
  consumers : List (String × Consumer)
  tiers : List (String × Tier)
  limiter : List (String × LimiterEntry)
  upstream_health : Bool
deriving DecidableEq

/-- Modelled from the spec: "lookup_consumer(key) -> Option(Consumer) —
O(1) lookup against the current snapshot" (called `state.get_consumer` at
proxy.rs line 161). -/
def State.get_consumer (st : State) (key : String) : Option Consumer :=
  st.consumers.lookup key

/-- Embeds the fields of `Config` (config.rs lines 3-20) that the
dataplane reads; durations and paths that only steer the out-of-scope
background tasks are omitted. -/
structure Config where
  network : String
  proxy_namespace : String
  kupo_port : Nat
  kupo_dns : String
  health_endpoint : String
  private_endpoint : String
deriving DecidableEq

/-- Embeds `Config::instance` (config.rs lines 62-70); named
`instanceAddr` because `instance` is a Lean keyword. -/
def Config.instanceAddr (c : Config) (pruned : Bool) : String :=
  match pruned with
  | true => "kupo-" ++ c.network ++ "-pruned." ++ c.kupo_dns ++ ":" ++ toString c.kupo_port
  | false => "kupo-" ++ c.network ++ "." ++ c.kupo_dns ++ ":" ++ toString c.kupo_port

/-- The upstream target format exactly as the spec words it:
"{service-prefix}-{network}[-pruned].{dns-suffix}:{port}". This is the
spec-side definition for the refinement claim about upstream selection;
`Config.instanceAddr` above is the code-side one. -/
def upstreamTargetSpec (svc network dns : String) (port : Nat) (pruned : Bool) : String :=
  svc ++ "-" ++ network ++ (if pruned then "-pruned" else "") ++ "." ++ dns ++ ":" ++ toString port

/-- Embeds `KupoProxy` (proxy.rs lines 19-24): the two regexes compiled in
`KupoProxy::new` are carried as the functions they denote. `host_regex`
models `Regex::captures` of `([dmtr_]?[\w\d-]+)?\.?.+`: outer `none` is
"no match" (so `captures(host).unwrap()` panics), the inner option is
capture group 1. `private_endpoint_regex` models `Regex::is_match` of the
configured private-endpoint pattern. The shared state is passed explicitly
instead of being a field. -/
structure KupoProxy where
  config : Config
  host_regex : String → Option (Option String)
  private_endpoint_regex : String → Bool

/-- Models `Regex::is_match` of the default private-endpoint pattern
`^PUT/patterns(?:/.*)?$` (config.rs lines 23-24): anchored on both sides,
it accepts exactly "PUT/patterns" and anything under "PUT/patterns/". -/
def defaultPrivateMatch (s : String) : Bool :=
  s == "PUT/patterns" || "PUT/patterns/".data.isPrefixOf s.data

/-- A raw HTTP header value: `valid` says its bytes are UTF-8 and `str` is
the decoded text when they are. -/
structure HeaderVal where
  valid : Bool
  str : String
deriving DecidableEq

/-- Models `http::HeaderValue::to_str`, which fails on non-UTF-8 bytes. -/
def HeaderVal.to_str (h : HeaderVal) : Option String :=
  if h.valid then some h.str else none

/-- An inbound request as `request_filter` reads it, plus `write_ok`, the
transport's ability to write this request's response (a failed write is
what `write_response_header/body` and `respond_error` surface as `Err`). -/
structure Request where
  method : String
  path : String
  host : Option HeaderVal
  dmtr_api_key : Option HeaderVal
  write_ok : Bool
deriving DecidableEq

/-- Outcome of a fallible handler: `ok`, a propagated request-level
`pingora::Error` (the `?` operator), or a panic (`unwrap` failure). -/
inductive RFResult (α : Type) where
  | ok : α → RFResult α
  | err : RFResult α
  | panicked : RFResult α
deriving DecidableEq

/-- A response as written to the session: status code, body (when one is
written explicitly), and whether `set_keepalive(None)` was called. -/
structure Resp where
  code : Nat
  body : Option String
  keepalive_disabled : Bool
deriving DecidableEq

/-- Embeds `Context` (proxy.rs lines 116-121); `inst` is the `instance`
field (a Lean keyword). The derived default models `Context::default()`. -/
structure Context where
  is_health_request : Bool
  inst : String
  consumer : Consumer
deriving DecidableEq, Inhabited

/-- Embeds `KupoProxy::has_limiter` (proxy.rs lines 38-41). -/
def KupoProxy.has_limiter (st : State) (c : Consumer) : Bool :=
  (st.limiter.lookup c.key).isSome

/-- Embeds `KupoProxy::add_limiter` (proxy.rs lines 43-55): one fresh
counter per rule of the tier, inserted under the consumer's key. -/
def KupoProxy.add_limiter (st : State) (c : Consumer) (t : Tier) : State :=
  { st with limiter := (c.key, t.rates.map (fun r => (r, (0 : RateCounter)))) :: st.limiter }

/-- Embeds `rates.iter().any(|(t, r)| r.observe(&consumer.key, 1) > t.limit)`
(proxy.rs lines 72-75). Rust's `Iterator::any` calls the closure element by
element and stops at the first `true`, so `observe` records an event on
each counter up to and including the first rule found over its limit and
on no counter after it. Returns the `any` result and the updated
counters. -/
def observeAll : LimiterEntry → Bool × LimiterEntry
  | [] => (false, [])
  | (t, r) :: rest =>
    if t.limit < r + 1 then
      (true, (t, r + 1) :: rest)
    else
      let tail := observeAll rest
      (tail.1, (t, r + 1) :: tail.2)

/-- Embeds `KupoProxy::limiter` (proxy.rs lines 57-80): resolve the
consumer's tier in the current catalog (`true` = reject when absent),
lazily create the consumer's limiter entry, then run the `any` over the
stored `(rule, counter)` pairs. Returns the rejection flag and the state
with the counters as `observe` left them. -/
def KupoProxy.limiter (st : State) (c : Consumer) : Bool × State :=
  match st.tiers.lookup c.tier with
  | none => (true, st)
  | some tier =>
    let st1 := if KupoProxy.has_limiter st c then st else KupoProxy.add_limiter st c tier
    let ob := observeAll ((st1.limiter.lookup c.key).getD [])
    (ob.1, { st1 with limiter := (c.key, ob.2) :: st1.limiter })

/-- Embeds `KupoProxy::respond_health` (proxy.rs lines 82-99): marks the
context, disables keep-alive, answers 200 "OK" or 500 "UNHEALTHY" from the
upstream-health flag; the response writes are `unwrap`ed, so a write
failure panics. -/
def KupoProxy.respond_health (st : State) (req : Request) (ctx : Context) : RFResult (Context × Resp) :=
  let ctx := { ctx with is_health_request := true }
  let cm := if st.upstream_health then ((200 : Nat), "OK") else (500, "UNHEALTHY")
  if req.write_ok then
    .ok (ctx, { code := cm.1, body := some cm.2, keepalive_disabled := true })
  else
    .panicked

/-- Embeds `KupoProxy::respond_unauthorized` (proxy.rs lines 101-113):
disables keep-alive and writes 401 with a fixed body; the writes are
`unwrap`ed, so a write failure panics. -/
def KupoProxy.respond_unauthorized (req : Request) : RFResult Resp :=
  if req.write_ok then
    .ok { code := 401, body := some "unauthorized to request the endpoint", keepalive_disabled := true }
  else
    .panicked

/-- Embeds `session.respond_error(code)` followed by `?` (proxy.rs lines
162, 167, 175): a write failure is propagated as a request-level error,
not a panic. -/
def respond_error (req : Request) (code : Nat) : RFResult Resp :=
  if req.write_ok then
    .ok { code := code, body := none, keepalive_disabled := false }
  else
    .err

/-- Embeds the credential extraction of `request_filter` (proxy.rs lines
149-159). `none` models a panic: the `Host` header is `unwrap`ed (absent
header panics), its value is `to_str().unwrap()`ed (non-UTF-8 panics), and
the regex captures are `unwrap`ed (no match panics). Otherwise the key is
the `dmtr-api-key` header when present and UTF-8, else capture group 1 of
the host regex, else the empty string. -/
def KupoProxy.extract_key (p : KupoProxy) (req : Request) : Option String :=
  match req.host with
  | none => none
  | some hv =>
    match hv.to_str with
    | none => none
    | some host =>
      match p.host_regex host with
      | none => none
      | some g1 => some (((req.dmtr_api_key.bind HeaderVal.to_str).or g1).getD "")

/-- What `request_filter` hands on: the returned bool (`true` = response
already written, stop), the context, the response written (if any), and
the state after any limiter mutation. -/
structure FilterOutput where
  handled : Bool
  ctx : Context
  response : Option Resp
  state : State
deriving DecidableEq

/-- Embeds `KupoProxy::request_filter` (proxy.rs lines 130-180), in the
source's order: health endpoint, private-endpoint guard, credential
extraction, consumer lookup (401), network match (401), context fill-in
(consumer + upstream instance), rate limit (429), else continue to
forwarding. -/
def KupoProxy.request_filter (p : KupoProxy) (st : State) (req : Request) : RFResult FilterOutput :=
  let ctx : Context := default
  if req.path == p.config.health_endpoint then
    match KupoProxy.respond_health st req ctx with
    | .ok pr => .ok { handled := true, ctx := pr.1, response := some pr.2, state := st }
    | .err => .err
    | .panicked => .panicked
  else
    if p.private_endpoint_regex (req.method ++ req.path) then
      match KupoProxy.respond_unauthorized req with
      | .ok resp => .ok { handled := true, ctx := ctx, response := some resp, state := st }
      | .err => .err
      | .panicked => .panicked
    else
      match p.extract_key req with
      | none => .panicked
      | some key =>
        match st.get_consumer key with
        | none =>
          match respond_error req 401 with
          | .ok resp => .ok { handled := true, ctx := ctx, response := some resp, state := st }
          | .err => .err
          | .panicked => .panicked
        | some consumer =>
          if consumer.network != p.config.network then
            match respond_error req 401 with
            | .ok resp => .ok { handled := true, ctx := ctx, response := some resp, state := st }
            | .err => .err
            | .panicked => .panicked
          else
            let ctx := { ctx with consumer := consumer, inst := p.config.instanceAddr consumer.pruned }
            let lim := KupoProxy.limiter st consumer
            if lim.1 then
              match respond_error req 429 with
              | .ok resp => .ok { handled := true, ctx := ctx, response := some resp, state := lim.2 }
              | .err => .err
              | .panicked => .panicked
            else
              .ok { handled := false, ctx := ctx, response := none, state := lim.2 }

/-- Embeds `KupoProxy::logging` (proxy.rs lines 191-214): whether the
post-response log line and the request-counter metric increment are
emitted for a request that produced this context. -/
def KupoProxy.logging (ctx : Context) : Bool :=
  !ctx.is_health_request

/-- Embeds `KupoProxy::upstream_peer` (proxy.rs lines 182-189): the peer
address is the instance stored in the context. -/
def KupoProxy.upstream_peer (ctx : Context) : String :=
  ctx.inst

/-- Runs `n` successive rate-limit evaluations for one consumer, threading
the state: the list of rejection flags the limiter returns. -/
def limiterSeq : Nat → State → Consumer → List Bool
  | 0, _, _ => []
  | Nat.succ n, st, c =>
    let pr := KupoProxy.limiter st c
    pr.1 :: limiterSeq n pr.2 c

/-- Recording one event on a `(rule, counter)` pair: the spec-side map used
to state which counters an evaluation increments. -/
def bumpRate (pr : RateRule × RateCounter) : RateRule × RateCounter :=
  (pr.1, pr.2 + 1)

/-! Concrete inputs for the closed counterexample and witness theorems. -/

/-- A concrete configuration. -/
def cfgW : Config :=
  { network := "mainnet", proxy_namespace := "ns", kupo_port := 1442,
    kupo_dns := "svc.local", health_endpoint := "/dmtr_health",
    private_endpoint := "^PUT/patterns(?:/.*)?$" }

/-- A concrete proxy over `cfgW`: the host regex always captures "abc"
(the behavior of `([dmtr_]?[\w\d-]+)?\.?.+` on the host "abc.svc.local"
used below), the private-endpoint regex is the default one. -/
def pW : KupoProxy :=
  { config := cfgW, host_regex := fun _ => some (some "abc"),
    private_endpoint_regex := defaultPrivateMatch }

/-- A provisioned consumer of the configured network, tier "gold". -/
def consW : Consumer :=
  { key := "abc", network := "mainnet", pruned := false, tier := "gold" }

/-- A state whose Tier Catalog is empty, so "gold" is unknown. -/
def stW : State :=
  { consumers := [("abc", consW)], tiers := [], limiter := [], upstream_health := true }

/-- A plain request by `consW` carrying its key in the dmtr-api-key header. -/
def reqW : Request :=
  { method := "GET", path := "/v1/matches",
    host := some { valid := true, str := "abc.svc.local" },
    dmtr_api_key := some { valid := true, str := "abc" }, write_ok := true }

/-- A rule already at its limit (limit 0) and a roomy second rule. -/
def r1W : RateRule := { interval := 1, limit := 0 }

/-- The roomy second rule of the two-rule tier. -/
def r2W : RateRule := { interval := 60, limit := 10 }

/-- A state where "gold" has the two rules and `consW` already holds a
limiter entry with both counters at zero. -/
def st2W : State :=
  { consumers := [("abc", consW)],
    tiers := [("gold", { name := "gold", rates := [r1W, r2W] })],
    limiter := [("abc", [(r1W, 0), (r2W, 0)])], upstream_health := true }

/-- A request that carries no Host header at all. -/
def req3W : Request :=
  { method := "GET", path := "/v1/matches", host := none, dmtr_api_key := none,
    write_ok := true }

/-- A request to the configured health endpoint. -/
def reqHW : Request :=
  { method := "GET", path := "/dmtr_health", host := none, dmtr_api_key := none,
    write_ok := true }

/-- A request whose api key "zzz" is in no Tenant Directory entry. -/
def req5W : Request :=
  { method := "GET", path := "/v1/matches",
    host := some { valid := true, str := "abc.svc.local" },
    dmtr_api_key := some { valid := true, str := "zzz" }, write_ok := true }

/-- A request matching the default private-endpoint pattern; it carries no
Host header, showing the 401 is decided before credential extraction. -/
def req6W : Request :=
  { method := "PUT", path := "/patterns/abc", host := none, dmtr_api_key := none,
    write_ok := true }

/-- A consumer provisioned for another network than `cfgW.network`. -/
def cons9W : Consumer :=
  { key := "xyz", network := "preprod", pruned := true, tier := "gold" }

/-- A state resolving the key "xyz" to the cross-network consumer. -/
def st9W : State :=
  { consumers := [("xyz", cons9W)], tiers := [], limiter := [], upstream_health := true }

/-- A request presenting the cross-network key "xyz". -/
def req9W : Request :=
  { method := "GET", path := "/v1/matches",
    host := some { valid := true, str := "xyz.svc.local" },
    dmtr_api_key := some { valid := true, str := "xyz" }, write_ok := true }

/-- A consumer whose tier "empty" resolves to a tier with zero rules. -/
def cons7W : Consumer :=
  { key := "abc", network := "mainnet", pruned := false, tier := "empty" }

/-- A state whose catalog maps "empty" to a tier with no rules. -/
def st7W : State :=
  { consumers := [("abc", cons7W)],
    tiers := [("empty", { name := "empty", rates := [] })],
    limiter := [], upstream_health := true }

/-- The context `respond_health` leaves behind: marked as a health request,
no instance chosen, the default (unauthenticated) consumer. -/
def healthCtx : Context :=
  { is_health_request := true, inst := "",
    consumer := { key := "", network := "", pruned := false, tier := "" } }

/-- The healthy health-endpoint response. -/
def respOK : Resp := { code := 200, body := some "OK", keepalive_disabled := true }

/-- The unhealthy health-endpoint response. -/
def respUnhealthy : Resp := { code := 500, body := some "UNHEALTHY", keepalive_disabled := true }

/-! Theorems. -/

/-- The value of `Context::default()` spelled out field by field. -/
theorem context_default_eq :
    (default : Context) =
      { is_health_request := false, inst := "",
        consumer := { key := "", network := "", pruned := false, tier := "" } } := rfl

/-- C1 counterexample: a consumer whose tier "gold" is not in the (empty)
Tier Catalog. The claim says the limiter never reports over-limit and the
request is not answered 429; on this input the limiter reports over-limit
and the pipeline answers 429. -/
theorem c1_fail_open_counterexample :
    (KupoProxy.limiter stW consW).1 = true ∧
    pW.request_filter stW reqW = .ok {
      handled := true,
      ctx := { is_health_request := false, inst := "kupo-mainnet.svc.local:1442",
               consumer := consW },
      response := some { code := 429, body := none, keepalive_disabled := false },
      state := stW } := by
  constructor
  · decide
  · decide

/-- C1 (amended): for every consumer whose tier name is not present in the
current Tier Catalog, the rate-limit check reports over-limit
unconditionally and the request is answered 429 (fail-closed, the opposite
of the claim's fail-open). -/
theorem c1_unknown_tier_fail_closed (p : KupoProxy) (st : State) (req : Request)
    (key : String) (consumer : Consumer)
    (hh : (req.path == p.config.health_endpoint) = false)
    (hp : p.private_endpoint_regex (req.method ++ req.path) = false)
    (hk : p.extract_key req = some key)
    (hc : st.get_consumer key = some consumer)
    (hn : (consumer.network != p.config.network) = false)
    (ht : st.tiers.lookup consumer.tier = none)
    (hw : req.write_ok = true) :
    KupoProxy.limiter st consumer = (true, st) ∧
    p.request_filter st req = .ok {
      handled := true,
      ctx := { is_health_request := false, inst := p.config.instanceAddr consumer.pruned,
               consumer := consumer },
      response := some { code := 429, body := none, keepalive_disabled := false },
      state := st } := by
  have hlim : KupoProxy.limiter st consumer = (true, st) := by
    unfold KupoProxy.limiter
    rw [ht]
  refine ⟨hlim, ?_⟩
  unfold KupoProxy.request_filter
  simp [hh, hp, hk, hc, hn, hlim, hw, respond_error, context_default_eq]

/-- C1 witness: the amended theorem applied to the concrete consumer with
the unknown tier "gold". -/
theorem c1_unknown_tier_witness :
    KupoProxy.limiter stW consW = (true, stW) ∧
    pW.request_filter stW reqW = .ok {
      handled := true,
      ctx := { is_health_request := false, inst := pW.config.instanceAddr consW.pruned,
               consumer := consW },
      response := some { code := 429, body := none, keepalive_disabled := false },
      state := stW } :=
  c1_unknown_tier_fail_closed pW stW reqW "abc" consW (by decide) (by decide) (by decide)
    (by decide) (by decide) (by decide) (by decide)

/-- C2 counterexample: the tier holds two rules, the first already at its
limit. The claim says one evaluation records one event on every rule's
counter; on this input the evaluation leaves the second rule's counter at
0 (the first rule's over-limit answer ended the `any` early). -/
theorem c2_skipped_increment_counterexample :
    (KupoProxy.limiter st2W consW).1 = true ∧
    (KupoProxy.limiter st2W consW).2.limiter.lookup "abc" = some [(r1W, 1), (r2W, 0)] := by
  constructor
  · decide
  · decide

/-- C2 (amended): one rate-limit evaluation records one event on each
rule's counter in order only up to and including the first rule found over
its limit; when such a rule exists, the counters of all later rules are
left unchanged (the `any` exits early), and only when no rule is over its
limit is every counter incremented. -/
theorem c2_observe_increments_amended (l : LimiterEntry) :
    ((observeAll l).1 = false ∧ (observeAll l).2 = l.map bumpRate
       ∧ ∀ pr ∈ l, ¬ pr.1.limit < pr.2 + 1)
  ∨ (∃ pre tr suf, l = pre ++ tr :: suf
      ∧ (∀ pr ∈ pre, ¬ pr.1.limit < pr.2 + 1)
      ∧ tr.1.limit < tr.2 + 1
      ∧ (observeAll l).1 = true
      ∧ (observeAll l).2 = pre.map bumpRate ++ (tr.1, tr.2 + 1) :: suf) := by
  induction l with
  | nil => left; exact ⟨rfl, rfl, by simp⟩
  | cons hd tl ih =>
    obtain ⟨t, r⟩ := hd
    by_cases h : t.limit < r + 1
    · right
      refine ⟨[], (t, r), tl, by simp, by simp, h, ?_, ?_⟩
      · simp [observeAll, h]
      · simp [observeAll, h]
    · rcases ih with ⟨h1, h2, h3⟩ | ⟨pre, tr, suf, he, hpre, htr, hb, hl⟩
      · left
        refine ⟨?_, ?_, ?_⟩
        · simp [observeAll, h, h1]
        · simp [observeAll, h, h2, bumpRate]
        · intro pr hpr
          rw [List.mem_cons] at hpr
          rcases hpr with rfl | hpr
          · simpa using h
          · exact h3 pr hpr
      · right
        refine ⟨(t, r) :: pre, tr, suf, by simp [he], ?_, htr, ?_, ?_⟩
        · intro pr hpr
          rw [List.mem_cons] at hpr
          rcases hpr with rfl | hpr
          · simpa using h
          · exact hpre pr hpr
        · simp [observeAll, h, hb]
        · simp [observeAll, h, hl, bumpRate]

/-- C3 counterexample: a request with no Host header that reaches
credential extraction. The claim says the handler never panics there; on
this input `request_filter` panics (the `unwrap` of the absent header). -/
theorem c3_missing_host_counterexample :
    pW.request_filter stW req3W = .panicked := by
  decide

/-- C3 (amended): a request that reaches credential extraction with no
Host header, or with a non-UTF-8 Host header, makes the handler panic
rather than produce a response; a response-write failure on the health
response also panics (the writes are `unwrap`ed); only the write failures
of `respond_error` (the 401 path) are propagated as request-level errors. -/
theorem c3_decision_points_amended (p : KupoProxy) (st : State) (req : Request) :
    ((req.path == p.config.health_endpoint) = false →
     p.private_endpoint_regex (req.method ++ req.path) = false →
     req.host = none →
     p.request_filter st req = .panicked)
  ∧ ((req.path == p.config.health_endpoint) = false →
     p.private_endpoint_regex (req.method ++ req.path) = false →
     ∀ hv, req.host = some hv → hv.valid = false →
     p.request_filter st req = .panicked)
  ∧ ((req.path == p.config.health_endpoint) = true →
     req.write_ok = false →
     p.request_filter st req = .panicked)
  ∧ (∀ key, (req.path == p.config.health_endpoint) = false →
     p.private_endpoint_regex (req.method ++ req.path) = false →
     p.extract_key req = some key →
     st.get_consumer key = none →
     req.write_ok = false →
     p.request_filter st req = .err) := by
  refine ⟨?_, ?_, ?_, ?_⟩
  · intro hh hp hhost
    unfold KupoProxy.request_filter
    simp [hh, hp, KupoProxy.extract_key, hhost]
  · intro hh hp hv hhost hvalid
    unfold KupoProxy.request_filter
    simp [hh, hp, KupoProxy.extract_key, hhost, HeaderVal.to_str, hvalid]
  · intro hh hw
    unfold KupoProxy.request_filter
    simp [hh, KupoProxy.respond_health, hw]
  · intro key hh hp hk hc hw
    unfold KupoProxy.request_filter
    simp [hh, hp, hk, hc, respond_error, hw]

/-- C4: a request whose path is the configured health endpoint is answered
immediately from the Upstream Health flag — 200 "OK" when it is true, 500
"UNHEALTHY" when it is false — with keep-alive disabled, for every state
(so independently of consumers, tiers and limiter counters) and every
request (so independently of any credential); the state is unchanged, the
filter short-circuits (handled, so no forwarding), and the context is
marked so `logging` emits neither the log line nor the metric. -/
theorem c4_health_endpoint (p : KupoProxy) (st : State) (req : Request)
    (hh : (req.path == p.config.health_endpoint) = true)
    (hw : req.write_ok = true) :
    p.request_filter st req = .ok {
      handled := true,
      ctx := healthCtx,
      response := some (if st.upstream_health then respOK else respUnhealthy),
      state := st }
    ∧ KupoProxy.logging healthCtx = false := by
  constructor
  · unfold KupoProxy.request_filter KupoProxy.respond_health
    cases hu : st.upstream_health <;>
      simp [hh, hw, hu, context_default_eq, healthCtx, respOK, respUnhealthy]
  · rfl

/-- C4 witness: the health request `reqHW` against the healthy state
`stW`. -/
theorem c4_health_endpoint_witness :
    pW.request_filter stW reqHW = .ok {
      handled := true,
      ctx := healthCtx,
      response := some (if stW.upstream_health then respOK else respUnhealthy),
      state := stW }
    ∧ KupoProxy.logging healthCtx = false :=
  c4_health_endpoint pW stW reqHW (by decide) (by decide)

/-- C5: a request whose extracted credential is not in the Tenant
Directory is answered 401; the returned state is the input state, so the
rate limiter was not evaluated (no counter was created or touched), and
the returned context is the default one, so no upstream instance was
selected. -/
theorem c5_unknown_credential_401 (p : KupoProxy) (st : State) (req : Request)
    (key : String)
    (hh : (req.path == p.config.health_endpoint) = false)
    (hp : p.private_endpoint_regex (req.method ++ req.path) = false)
    (hk : p.extract_key req = some key)
    (hc : st.get_consumer key = none)
    (hw : req.write_ok = true) :
    p.request_filter st req = .ok {
      handled := true,
      ctx := default,
      response := some { code := 401, body := none, keepalive_disabled := false },
      state := st } := by
  unfold KupoProxy.request_filter
  simp [hh, hp, hk, hc, respond_error, hw]

/-- C5 witness: the unknown key "zzz" against the state `stW`. -/
theorem c5_unknown_credential_witness :
    pW.request_filter stW req5W = .ok {
      handled := true,
      ctx := default,
      response := some { code := 401, body := none, keepalive_disabled := false },
      state := stW } :=
  c5_unknown_credential_401 pW stW req5W "zzz" (by decide) (by decide) (by decide)
    (by decide) (by decide)

/-- C6: a non-health request whose method ++ path matches the
private-endpoint pattern is answered 401 with the fixed body, with the
state unchanged and the context still default. The request's Host and
api-key headers are universally quantified and absent from every
hypothesis and from the response, so the outcome is independent of any
credential; in particular the pipeline terminates before credential
extraction (the witness request carries no Host header at all, which would
panic the extraction step). -/
theorem c6_private_endpoint_401 (p : KupoProxy) (st : State) (req : Request)
    (hh : (req.path == p.config.health_endpoint) = false)
    (hp : p.private_endpoint_regex (req.method ++ req.path) = true)
    (hw : req.write_ok = true) :
    p.request_filter st req = .ok {
      handled := true,
      ctx := default,
      response := some { code := 401, body := some "unauthorized to request the endpoint",
                         keepalive_disabled := true },
      state := st } := by
  unfold KupoProxy.request_filter KupoProxy.respond_unauthorized
  simp [hh, hp, hw]

/-- C6 witness: a PUT to /patterns/abc with no credential at all. -/
theorem c6_private_endpoint_witness :
    pW.request_filter stW req6W = .ok {
      handled := true,
      ctx := default,
      response := some { code := 401, body := some "unauthorized to request the endpoint",
                         keepalive_disabled := true },
      state := stW } :=
  c6_private_endpoint_401 pW stW req6W (by decide) (by decide) (by decide)

/-- One limiter evaluation for a consumer whose tier resolves to zero
rules, starting from a state whose entry for that consumer is absent or
empty: it does not reject, keeps the catalog, and leaves an empty entry. -/
theorem limiter_zero_rules_step (st : State) (c : Consumer) (tier : Tier)
    (ht : st.tiers.lookup c.tier = some tier) (hr : tier.rates = [])
    (hl : st.limiter.lookup c.key = none ∨ st.limiter.lookup c.key = some []) :
    (KupoProxy.limiter st c).1 = false ∧
    (KupoProxy.limiter st c).2.tiers = st.tiers ∧
    (KupoProxy.limiter st c).2.limiter.lookup c.key = some [] := by
  unfold KupoProxy.limiter
  rw [ht]
  rcases hl with hl | hl
  · have hhas : KupoProxy.has_limiter st c = false := by
      simp [KupoProxy.has_limiter, hl]
    simp [hhas, KupoProxy.add_limiter, hr, observeAll, List.lookup]
  · have hhas : KupoProxy.has_limiter st c = true := by
      simp [KupoProxy.has_limiter, hl]
    simp [hhas, hl, observeAll, List.lookup]

/-- C7: a consumer whose tier resolves in the Tier Catalog to a tier with
zero rate rules is never rejected by the rate-limit check: every one of
`n` successive limiter evaluations returns false, for every `n`, starting
from a state where that consumer has no limiter entry yet (its entry is
then created from the zero-rule tier on the first request). -/
theorem c7_zero_rules_never_reject (n : Nat) (st : State) (c : Consumer) (tier : Tier)
    (ht : st.tiers.lookup c.tier = some tier) (hr : tier.rates = [])
    (hl : st.limiter.lookup c.key = none) :
    limiterSeq n st c = List.replicate n false := by
  have main : ∀ (m : Nat) (st' : State), st'.tiers.lookup c.tier = some tier →
      (st'.limiter.lookup c.key = none ∨ st'.limiter.lookup c.key = some []) →
      limiterSeq m st' c = List.replicate m false := by
    intro m
    induction m with
    | zero => intro st' _ _; rfl
    | succ k ih =>
      intro st' ht' hl'
      obtain ⟨h1, h2, h3⟩ := limiter_zero_rules_step st' c tier ht' hr hl'
      have hstep : limiterSeq (k + 1) st' c =
          (KupoProxy.limiter st' c).1 :: limiterSeq k (KupoProxy.limiter st' c).2 c := rfl
      rw [hstep, h1, List.replicate_succ]
      congr 1
      exact ih _ (by rw [h2]; exact ht') (Or.inr h3)
  exact main n st ht (Or.inl hl)

/-- C7 witness: three requests by the consumer of the zero-rule tier
"empty" all pass the rate-limit check. -/
theorem c7_zero_rules_witness :
    limiterSeq 3 st7W cons7W = List.replicate 3 false :=
  c7_zero_rules_never_reject 3 st7W cons7W { name := "empty", rates := [] }
    (by decide) (by decide) (by decide)

/-- C8: upstream selection is a pure function of the consumer's pruned
flag and the static configuration. First conjunct: `Config::instance`
equals the spec's format "{service-prefix}-{network}[-pruned].{dns-suffix}:{port}"
with service prefix "kupo". Second conjunct: whenever `request_filter`
returns (whether it forwards or answers 429), the instance recorded in the
context — the address `upstream_peer` uses — is exactly that function of
the resolved consumer's pruned flag; no health state appears, since the
function reads only the configuration. -/
theorem c8_upstream_target_pure :
    (∀ (cfg : Config) (pruned : Bool),
      cfg.instanceAddr pruned =
        upstreamTargetSpec "kupo" cfg.network cfg.kupo_dns cfg.kupo_port pruned)
  ∧ (∀ (p : KupoProxy) (st : State) (req : Request) (key : String)
      (consumer : Consumer) (out : FilterOutput),
      (req.path == p.config.health_endpoint) = false →
      p.private_endpoint_regex (req.method ++ req.path) = false →
      p.extract_key req = some key →
      st.get_consumer key = some consumer →
      (consumer.network != p.config.network) = false →
      p.request_filter st req = .ok out →
      out.ctx.inst = p.config.instanceAddr consumer.pruned ∧
      KupoProxy.upstream_peer out.ctx = p.config.instanceAddr consumer.pruned) := by
  constructor
  · intro cfg pruned
    cases pruned
    · show "kupo-" ++ cfg.network ++ "." ++ cfg.kupo_dns ++ ":" ++ toString cfg.kupo_port =
        "kupo" ++ "-" ++ cfg.network ++ "" ++ "." ++ cfg.kupo_dns ++ ":" ++ toString cfg.kupo_port
      rw [show ("kupo" : String) ++ "-" = "kupo-" from rfl, String.append_empty]
    · show "kupo-" ++ cfg.network ++ "-pruned." ++ cfg.kupo_dns ++ ":" ++ toString cfg.kupo_port =
        "kupo" ++ "-" ++ cfg.network ++ "-pruned" ++ "." ++ cfg.kupo_dns ++ ":" ++ toString cfg.kupo_port
      rw [show ("kupo" : String) ++ "-" = "kupo-" from rfl,
        String.append_assoc ("kupo-" ++ cfg.network) "-pruned" ".",
        show ("-pruned" : String) ++ "." = "-pruned." from rfl]
  · intro p st req key consumer out hh hp hk hc hn hok
    unfold KupoProxy.request_filter at hok
    simp only [hh, hp, hk, hc, hn] at hok
    simp at hok
    rcases hlw : KupoProxy.limiter st consumer with ⟨b, st'⟩
    rw [hlw] at hok
    cases b
    · simp at hok
      rw [← hok]
      exact ⟨rfl, rfl⟩
    · simp [respond_error] at hok
      rcases hrw : req.write_ok with _ | _
      · rw [hrw] at hok
        simp at hok
      · rw [hrw] at hok
        simp at hok
        rw [← hok]
        exact ⟨rfl, rfl⟩

/-- C9: a request whose credential resolves to a consumer of another
network than the proxy's configured one is answered 401; the state is
returned unchanged, so the rate-limit step never ran, and the context is
still the default one, so no upstream instance was selected. -/
theorem c9_network_mismatch_401 (p : KupoProxy) (st : State) (req : Request)
    (key : String) (consumer : Consumer)
    (hh : (req.path == p.config.health_endpoint) = false)
    (hp : p.private_endpoint_regex (req.method ++ req.path) = false)
    (hk : p.extract_key req = some key)
    (hc : st.get_consumer key = some consumer)
    (hn : (consumer.network == p.config.network) = false)
    (hw : req.write_ok = true) :
    p.request_filter st req = .ok {
      handled := true,
      ctx := default,
      response := some { code := 401, body := none, keepalive_disabled := false },
      state := st } := by
  have hbne : (consumer.network != p.config.network) = true := by
    simp [bne, hn]
  unfold KupoProxy.request_filter
  simp [hh, hp, hk, hc, hbne, respond_error, hw]

/-- C9 witness: the key "xyz" of the preprod consumer against the mainnet
proxy. -/
theorem c9_network_mismatch_witness :
    pW.request_filter st9W req9W = .ok {
      handled := true,
      ctx := default,
      response := some { code := 401, body := none, keepalive_disabled := false },
      state := st9W } :=
  c9_network_mismatch_401 pW st9W req9W "xyz" cons9W (by decide) (by decide) (by decide)
    (by decide) (by decide) (by decide)

/-- C10: once a limiter entry `rates` exists for a consumer's key, a
rate-limit evaluation depends on the Tier Catalog only through whether the
consumer's tier name still resolves: when it does not, the evaluation
rejects and leaves the state alone; when it resolves to any tier, the
result is computed entirely from the stored `rates` — the tier the catalog
now holds appears nowhere in the result, so a catalog replacement never
changes the intervals or limits applied to that consumer. -/
theorem c10_stored_rules_persist (st : State) (c : Consumer) (rates : LimiterEntry)
    (hl : st.limiter.lookup c.key = some rates) :
    (st.tiers.lookup c.tier = none → KupoProxy.limiter st c = (true, st))
  ∧ (∀ tier, st.tiers.lookup c.tier = some tier →
      KupoProxy.limiter st c =
        ((observeAll rates).1,
         { st with limiter := (c.key, (observeAll rates).2) :: st.limiter })) := by
  constructor
  · intro ht
    unfold KupoProxy.limiter
    rw [ht]
  · intro tier ht
    have hhas : KupoProxy.has_limiter st c = true := by
      simp [KupoProxy.has_limiter, hl]
    unfold KupoProxy.limiter
    rw [ht]
    simp [hhas, hl]

/-- C10 witness: the stored two-rule entry of `st2W` drives the
evaluation. -/
theorem c10_stored_rules_witness :
    KupoProxy.limiter st2W consW =
      ((observeAll [(r1W, 0), (r2W, 0)]).1,
       { st2W with limiter := ("abc", (observeAll [(r1W, 0), (r2W, 0)]).2) :: st2W.limiter }) :=
  (c10_stored_rules_persist st2W consW [(r1W, 0), (r2W, 0)] (by decide)).2
    { name := "gold", rates := [r1W, r2W] } (by decide)

end Kupo
